import Mathlib

/-!
Shallow embedding of the hybrid function-calling router in `main.py`.

The program routes a function-calling request between an on-device model
(`generate_cactus`) and a cloud model (`generate_cloud`); `generate_hybrid`
inspects the local result and either accepts it or falls back to the cloud,
merging telemetry.  Python dicts with a fixed field set become Lean
structures; fields whose presence or absence matters to the control flow
become `Option`; Python floats become `ℚ`; a Python `KeyError` or
`AttributeError` becomes the error side of `Except`.  The two opaque model
back-ends (`cactus_complete` plus `json.loads`, and the Gemini response)
are modelled by their observable outcomes, which the embedded functions
take as inputs.
-/

/-- A JSON value, as produced by `json.loads`. -/
inductive Json where
  | null
  | bool (b : Bool)
  | num (q : ℚ)
  | str (s : String)
  | arr (elems : List Json)
  | obj (fields : List (String × Json))

/-- The Python exceptions the embedded code can raise. -/
inductive PyError where
  | keyError (key : String)
  | attributeError
  | engineError

/-- A chat message: `{"role": ..., "content": ...}`. -/
structure Message where
  role : String
  content : String

/-- A function call proposed by a generator.  `main.py` reads `call["name"]`
(raising `KeyError` when absent, hence `Option`) and
`call.get("arguments", {})` (missing key tolerated, hence `Option`). -/
structure FunctionCall where
  name : Option String
  arguments : Option (List (String × Json))

/-- The `parameters` object of a declared tool: a JSON-Schema-like record
with `properties` and an optional `required` list (the code reads it with
`t["parameters"].get("required", [])`). -/
structure ToolParams where
  properties : List (String × Json)
  required : Option (List String)

/-- A declared tool: `{"name": ..., "description": ..., "parameters": ...}`. -/
structure ToolSpec where
  name : String
  description : String
  parameters : ToolParams

/-- The canonical result of the local adapter as consumed by the router:
`{"function_calls": ..., "total_time_ms": ..., "confidence": ...}`. -/
structure LocalResult where
  function_calls : List FunctionCall
  total_time_ms : ℚ
  confidence : ℚ

/-- The result dict built by `generate_cloud` (lines 91-94): it has only
the keys `function_calls` and `total_time_ms` — no `confidence`. -/
structure CloudResult where
  function_calls : List FunctionCall
  total_time_ms : ℚ

/-- The dict returned by `generate_hybrid`: the local or cloud record
enriched with `source`, and on fallback with `local_confidence`; the
cloud record never has a `confidence` key, so that field is `Option`. -/
structure HybridResult where
  function_calls : List FunctionCall
  total_time_ms : ℚ
  confidence : Option ℚ
  source : String
  local_confidence : Option ℚ

/-- Python's `str.lower()` restricted to the ASCII range, character by
character (all strings the program compares are ASCII). -/
def lowerStr (s : String) : String :=
  String.mk (s.toList.map Char.toLower)

/-- Whether `pat` occurs at the start of `l` (prefix test over characters). -/
def startsWithChars : List Char → List Char → Bool
  | [], _ => true
  | _ :: _, [] => false
  | a :: as, b :: bs => a == b && startsWithChars as bs

/-- Python's substring containment `pat in s`, over character lists. -/
def hasSubstr (pat : List Char) : List Char → Bool
  | [] => startsWithChars pat []
  | c :: cs => startsWithChars pat (c :: cs) || hasSubstr pat cs

/-- Lines 156-158: `" ".join(m["content"] for m in messages if m["role"] == "user").lower()`. -/
def user_text (messages : List Message) : String :=
  lowerStr (String.intercalate " "
    ((messages.filter (fun m => m.role == "user")).map Message.content))

/-- Lines 160-170: the fixed complexity keyword list. -/
def complex_keywords : List String :=
  [" and ", " or ", " if ", "compare", "difference", "between",
   "calculate", "then", "after"]

/-- Line 172: `any(k in user_text for k in complex_keywords)`. -/
def is_complex (messages : List Message) : Bool :=
  complex_keywords.any (fun k => hasSubstr k.toList (user_text messages).toList)

/-- Lines 140-145: the dict `{t["name"]: set(t["parameters"].get("required", []))}`
followed by `.get(call["name"], set())`.  A Python dict comprehension keeps
the last binding for a duplicated key, hence the lookup over `tools.reverse`. -/
def required_params (tools : List ToolSpec) (name : String) : List String :=
  match (tools.reverse).find? (fun t => t.name == name) with
  | some t => t.parameters.required.getD []
  | none => []

/-- `generate_hybrid` (lines 97-191).  The local result and the cloud
result stand for the values returned by the two adapter calls; the
cloud call is made only on a fallback branch, and its record is the
`cloud` argument.  Returns `Except.error (PyError.keyError "name")`
where the Python would raise at `call["name"]`. -/
def generate_hybrid (messages : List Message) (tools : List ToolSpec)
    (local_res : LocalResult) (cloud : CloudResult)
    (confidence_threshold : ℚ) : Except PyError HybridResult :=
  match local_res.function_calls with
  | [] =>
      Except.ok { function_calls := cloud.function_calls
                  total_time_ms := cloud.total_time_ms + local_res.total_time_ms
                  confidence := none
                  source := "cloud (fallback: no_calls)"
                  local_confidence := some local_res.confidence }
  | call :: rest =>
      if 1 < (call :: rest).length then
        Except.ok { function_calls := cloud.function_calls
                    total_time_ms := cloud.total_time_ms + local_res.total_time_ms
                    confidence := none
                    source := "cloud (fallback: multi_call)"
                    local_confidence := some local_res.confidence }
      else
        match call.name with
        | none => Except.error (PyError.keyError "name")
        | some name =>
          if (tools.map ToolSpec.name).contains name = false then
            Except.ok { function_calls := cloud.function_calls
                        total_time_ms := cloud.total_time_ms + local_res.total_time_ms
                        confidence := none
                        source := "cloud (fallback: invalid_tool)"
                        local_confidence := some local_res.confidence }
          else if ((required_params tools name).all
              (fun rq => ((call.arguments.getD []).map Prod.fst).contains rq)) = false then
            Except.ok { function_calls := cloud.function_calls
                        total_time_ms := cloud.total_time_ms + local_res.total_time_ms
                        confidence := none
                        source := "cloud (fallback: missing_args)"
                        local_confidence := some local_res.confidence }
          else if is_complex messages then
            Except.ok { function_calls := cloud.function_calls
                        total_time_ms := cloud.total_time_ms + local_res.total_time_ms
                        confidence := none
                        source := "cloud (fallback: complex_query)"
                        local_confidence := some local_res.confidence }
          else if local_res.confidence < confidence_threshold then
            Except.ok { function_calls := cloud.function_calls
                        total_time_ms := cloud.total_time_ms + local_res.total_time_ms
                        confidence := none
                        source := "cloud (fallback: low_conf)"
                        local_confidence := some local_res.confidence }
          else
            Except.ok { function_calls := local_res.function_calls
                        total_time_ms := local_res.total_time_ms
                        confidence := some local_res.confidence
                        source := "on-device"
                        local_confidence := none }

/-- The default value of `confidence_threshold` in `generate_hybrid`. -/
def default_confidence_threshold : ℚ := mkRat 7 10

/-- Observable outcome of the opaque call chain `cactus_complete` +
`json.loads` in `generate_cactus`: the engine either raises, or returns a
string that fails to parse as JSON (`returns none`), or returns a string
that parses to the given JSON value (`returns (some v)`). -/
inductive EngineOutcome where
  | raises
  | returns (parsedJSON : Option Json)

/-- The dict literal built by `generate_cactus` (lines 35-45): its three
values come straight out of the parsed JSON, so they are `Json`. -/
structure LocalRaw where
  function_calls : Json
  total_time_ms : Json
  confidence : Json

/-- What a run of `generate_cactus` does: its returned value or raised
exception, and whether the `cactus_destroy(model)` call (line 30) was
reached before the function exited. -/
structure CactusRun where
  result : Except PyError LocalRaw
  destroyed : Bool

/-- Python's `raw.get(key, default)`: on a dict it returns the stored value
or the default; on any non-dict value it raises `AttributeError`. -/
def pyDictGet : Json → String → Json → Except PyError Json
  | Json.obj fields, key, dflt => Except.ok ((fields.lookup key).getD dflt)
  | _, _, _ => Except.error PyError.attributeError

/-- `generate_cactus` (lines 12-45), as a function of the engine outcome.
The flow is: call the engine (an exception propagates before line 30 is
reached), call `cactus_destroy`, then parse: a `JSONDecodeError` yields the
empty/zero record, and otherwise the three fields are read with
`raw.get(..., default)`. -/
def generate_cactus : EngineOutcome → CactusRun
  | EngineOutcome.raises =>
      { result := Except.error PyError.engineError, destroyed := false }
  | EngineOutcome.returns none =>
      { result := Except.ok { function_calls := Json.arr []
                              total_time_ms := Json.num 0
                              confidence := Json.num 0 }
        destroyed := true }
  | EngineOutcome.returns (some raw) =>
      { result := do
          let fc ← pyDictGet raw "function_calls" (Json.arr [])
          let tm ← pyDictGet raw "total_time_ms" (Json.num 0)
          let cf ← pyDictGet raw "confidence" (Json.num 0)
          Except.ok { function_calls := fc, total_time_ms := tm, confidence := cf }
        destroyed := true }

/-- One function-call part of a Gemini response
(`part.function_call.name`, `part.function_call.args`). -/
structure CloudCallPart where
  name : String
  args : List (String × Json)

/-- One content part of a Gemini candidate; `function_call` may be unset. -/
structure CloudPart where
  function_call : Option CloudCallPart

/-- One candidate of a Gemini response (`candidate.content.parts`). -/
structure CloudCandidate where
  parts : List CloudPart

/-- The result construction of `generate_cloud` (lines 82-94), as a
function of the provider response and the measured wall-clock time: every
function-call part across every candidate becomes a call record with both
`name` and `arguments` keys, and the returned dict has exactly the keys
`function_calls` and `total_time_ms`. -/
def generate_cloud (candidates : List CloudCandidate) (elapsed_ms : ℚ) : CloudResult :=
  { function_calls :=
      ((candidates.map CloudCandidate.parts).flatten).filterMap (fun p =>
        p.function_call.map (fun fc =>
          { name := some fc.name, arguments := some fc.args }))
    total_time_ms := elapsed_ms }

/-! Sample data used by the witness and counterexample theorems, taken from
the example usage block of `main.py` (lines 209-236) and the spec's test
properties. -/

/-- The `get_weather` tool declared in the example usage block. -/
def get_weather_tool : ToolSpec :=
  { name := "get_weather"
    description := "Get current weather for a location"
    parameters :=
      { properties := [("location", Json.obj [("type", Json.str "string"),
                                              ("description", Json.str "City name")])]
        required := some ["location"] } }

/-- The declared tool list of the example usage block. -/
def tools0 : List ToolSpec := [get_weather_tool]

/-- The example conversation; its text contains no complexity keyword. -/
def msgs0 : List Message :=
  [{ role := "user", content := "What is the weather in San Francisco?" }]

/-- The spec's complex-query example text (contains `compare`, `" and "`,
`calculate` and `difference`). -/
def msgsC4 : List Message :=
  [{ role := "user", content := "Compare the weather and calculate the difference" }]

/-- A sample cloud adapter result. -/
def cloud0 : CloudResult :=
  { function_calls := [{ name := some "get_weather"
                         arguments := some [("location", Json.str "San Francisco")] }]
    total_time_ms := 80 }

/-- A well-formed local call to `get_weather` with its required argument. -/
def call_sf : FunctionCall :=
  { name := some "get_weather", arguments := some [("location", Json.str "SF")] }

/-- The spec's accepted local result: valid single call, confidence 0.95. -/
def local_good : LocalResult :=
  { function_calls := [call_sf], total_time_ms := 120, confidence := mkRat 95 100 }

/-- The spec's low-confidence local result: same call, confidence 0.5. -/
def local_lowconf : LocalResult :=
  { function_calls := [call_sf], total_time_ms := 120, confidence := mkRat 1 2 }

/-- A local result whose confidence sits exactly at the default threshold. -/
def local_at_threshold : LocalResult :=
  { function_calls := [call_sf], total_time_ms := 10, confidence := mkRat 7 10 }

/-- A local result with full confidence and a complete call. -/
def local_sf_full : LocalResult :=
  { function_calls := [call_sf], total_time_ms := 150, confidence := 1 }

/-- A local result with no function calls. -/
def local_empty : LocalResult :=
  { function_calls := [], total_time_ms := 3, confidence := 0 }

/-- A call to an undeclared tool name, with no arguments key. -/
def call_badname : FunctionCall := { name := some "gt_weather", arguments := none }

/-- A local result whose single call names an undeclared tool. -/
def local_badname : LocalResult :=
  { function_calls := [call_badname], total_time_ms := 5, confidence := 1 }

/-- A call record with no `"name"` key at all. -/
def call_noname : FunctionCall := { name := none, arguments := none }

/-- A local result whose single call record lacks the `"name"` key. -/
def local_noname : LocalResult :=
  { function_calls := [call_noname], total_time_ms := 5, confidence := 1 }

/-- A valid-name call with no `"arguments"` key. -/
def call_noargs : FunctionCall := { name := some "get_weather", arguments := none }

/-- A local result whose single call is valid-by-name but lacks arguments,
at full confidence. -/
def local_noargs : LocalResult :=
  { function_calls := [call_noargs], total_time_ms := 0, confidence := 1 }

/-- A sample Gemini response carrying one function-call part. -/
def cands0 : List CloudCandidate :=
  [CloudCandidate.mk [CloudPart.mk (some
    (CloudCallPart.mk "get_weather" [("location", Json.str "San Francisco")]))]]

/-- C1: if the local result is a single call to a declared tool whose
provided argument keys cover the tool's required parameters, the user text
(joined, lower-cased) contains no complexity keyword, and the confidence is
at least the threshold, then the router accepts the local result: source is
`"on-device"` and the function calls, time and confidence are returned
unchanged. -/
theorem hybrid_accepts_single_valid_confident
    (messages : List Message) (tools : List ToolSpec)
    (local_res : LocalResult) (cloud : CloudResult) (thr : ℚ)
    (call : FunctionCall) (nm : String)
    (h1 : local_res.function_calls = [call])
    (h2 : call.name = some nm)
    (h3 : (tools.map ToolSpec.name).contains nm = true)
    (h4 : ((required_params tools nm).all
      (fun rq => ((call.arguments.getD []).map Prod.fst).contains rq)) = true)
    (h5 : is_complex messages = false)
    (h6 : ¬ local_res.confidence < thr) :
    generate_hybrid messages tools local_res cloud thr
      = Except.ok { function_calls := local_res.function_calls
                    total_time_ms := local_res.total_time_ms
                    confidence := some local_res.confidence
                    source := "on-device"
                    local_confidence := none } := by
  unfold generate_hybrid
  rw [h1]
  dsimp only
  rw [h2]
  dsimp only
  rw [h3, h4, h5]
  simp [h6]

/-- Witness for C1: the spec's accept example — `get_weather` with its
`location` argument, no complexity keyword, confidence 0.95 against
threshold 0.7 — is accepted on-device with everything unchanged. -/
theorem hybrid_accepts_single_valid_confident_witness :
    generate_hybrid msgs0 tools0 local_good cloud0 (mkRat 7 10)
      = Except.ok { function_calls := local_good.function_calls
                    total_time_ms := local_good.total_time_ms
                    confidence := some local_good.confidence
                    source := "on-device"
                    local_confidence := none } :=
  hybrid_accepts_single_valid_confident msgs0 tools0 local_good cloud0
    (mkRat 7 10) call_sf "get_weather" rfl rfl (by decide) (by decide)
    (by decide) (by decide)

/-- C2: whenever the local result has no function calls, the router falls
back with reason `no_calls`, regardless of the messages, the tools, the
threshold and the rest of the local result — the first matching rule
short-circuits all later ones. -/
theorem hybrid_no_calls_fallback
    (messages : List Message) (tools : List ToolSpec)
    (local_res : LocalResult) (cloud : CloudResult) (thr : ℚ)
    (h : local_res.function_calls = []) :
    generate_hybrid messages tools local_res cloud thr
      = Except.ok { function_calls := cloud.function_calls
                    total_time_ms := cloud.total_time_ms + local_res.total_time_ms
                    confidence := none
                    source := "cloud (fallback: no_calls)"
                    local_confidence := some local_res.confidence } := by
  unfold generate_hybrid
  rw [h]

/-- Witness for C2: an empty local result (as after a JSON parse failure)
triggers the `no_calls` fallback — here with a complex-query text present,
showing no later rule is consulted. -/
theorem hybrid_no_calls_fallback_witness :
    generate_hybrid msgsC4 tools0 local_empty cloud0 (mkRat 7 10)
      = Except.ok { function_calls := cloud0.function_calls
                    total_time_ms := cloud0.total_time_ms + local_empty.total_time_ms
                    confidence := none
                    source := "cloud (fallback: no_calls)"
                    local_confidence := some local_empty.confidence } :=
  hybrid_no_calls_fallback msgsC4 tools0 local_empty cloud0 (mkRat 7 10) rfl

/-- C3: a single local call whose name is not among the declared tool names
falls back with reason `invalid_tool`, whatever its arguments are — in
particular also when required arguments are missing, so the invalid_tool
check precedes the missing_args check. -/
theorem hybrid_invalid_tool_before_missing_args
    (messages : List Message) (tools : List ToolSpec)
    (local_res : LocalResult) (cloud : CloudResult) (thr : ℚ)
    (call : FunctionCall) (nm : String)
    (h1 : local_res.function_calls = [call])
    (h2 : call.name = some nm)
    (h3 : (tools.map ToolSpec.name).contains nm = false) :
    generate_hybrid messages tools local_res cloud thr
      = Except.ok { function_calls := cloud.function_calls
                    total_time_ms := cloud.total_time_ms + local_res.total_time_ms
                    confidence := none
                    source := "cloud (fallback: invalid_tool)"
                    local_confidence := some local_res.confidence } := by
  unfold generate_hybrid
  rw [h1]
  dsimp only
  rw [h2]
  dsimp only
  rw [h3]
  simp

/-- Witness for C3: a call named `gt_weather` (not declared) that also has
no arguments key is rejected as `invalid_tool`, not `missing_args`. -/
theorem hybrid_invalid_tool_before_missing_args_witness :
    generate_hybrid msgs0 tools0 local_badname cloud0 (mkRat 7 10)
      = Except.ok { function_calls := cloud0.function_calls
                    total_time_ms := cloud0.total_time_ms + local_badname.total_time_ms
                    confidence := none
                    source := "cloud (fallback: invalid_tool)"
                    local_confidence := some local_badname.confidence } :=
  hybrid_invalid_tool_before_missing_args msgs0 tools0 local_badname cloud0
    (mkRat 7 10) call_badname "gt_weather" rfl rfl (by decide)

/-- Counterexample to C4 as stated: with the complex-query text present, a
single call to the declared tool `get_weather` at confidence 1.0 but with
its required `location` argument missing is rejected as `missing_args`,
not `complex_query` — the complexity check is not independent of argument
validity. -/
theorem hybrid_complex_query_needs_complete_args_cex :
    generate_hybrid msgsC4 tools0 local_noargs cloud0 (mkRat 7 10)
      = Except.ok { function_calls := cloud0.function_calls
                    total_time_ms := cloud0.total_time_ms + local_noargs.total_time_ms
                    confidence := none
                    source := "cloud (fallback: missing_args)"
                    local_confidence := some local_noargs.confidence }
    ∧ ("cloud (fallback: missing_args)" : String) ≠ "cloud (fallback: complex_query)"
    ∧ is_complex msgsC4 = true :=
  ⟨rfl, by decide, by decide⟩

/-- C4 (amended): if the user text contains a complexity keyword and the
local result is a single call to a declared tool whose required arguments
are all provided, the router falls back with reason `complex_query` at any
confidence (in particular 1.0) — the complexity check precedes the
confidence check, but runs only after the missing_args check passes. -/
theorem hybrid_complex_query_when_args_complete
    (messages : List Message) (tools : List ToolSpec)
    (local_res : LocalResult) (cloud : CloudResult) (thr : ℚ)
    (call : FunctionCall) (nm : String)
    (h1 : local_res.function_calls = [call])
    (h2 : call.name = some nm)
    (h3 : (tools.map ToolSpec.name).contains nm = true)
    (h4 : ((required_params tools nm).all
      (fun rq => ((call.arguments.getD []).map Prod.fst).contains rq)) = true)
    (h5 : is_complex messages = true) :
    generate_hybrid messages tools local_res cloud thr
      = Except.ok { function_calls := cloud.function_calls
                    total_time_ms := cloud.total_time_ms + local_res.total_time_ms
                    confidence := none
                    source := "cloud (fallback: complex_query)"
                    local_confidence := some local_res.confidence } := by
  unfold generate_hybrid
  rw [h1]
  dsimp only
  rw [h2]
  dsimp only
  rw [h3, h4, h5]
  simp

/-- Witness for C4 (amended): `"Compare the weather and calculate the
difference"` with a complete `get_weather` call at confidence 1.0 falls
back as `complex_query`. -/
theorem hybrid_complex_query_when_args_complete_witness :
    generate_hybrid msgsC4 tools0 local_sf_full cloud0 (mkRat 7 10)
      = Except.ok { function_calls := cloud0.function_calls
                    total_time_ms := cloud0.total_time_ms + local_sf_full.total_time_ms
                    confidence := none
                    source := "cloud (fallback: complex_query)"
                    local_confidence := some local_sf_full.confidence } :=
  hybrid_complex_query_when_args_complete msgsC4 tools0 local_sf_full cloud0
    (mkRat 7 10) call_sf "get_weather" rfl rfl (by decide) (by decide) (by decide)

/-- C5: for a single valid call with complete required arguments and no
complexity keyword, the router rejects with `low_conf` exactly when the
confidence is strictly below the threshold (and then carries
`local_confidence` equal to the local confidence), and accepts on-device
otherwise — in particular a confidence equal to the threshold is accepted. -/
theorem hybrid_low_conf_threshold_boundary
    (messages : List Message) (tools : List ToolSpec)
    (local_res : LocalResult) (cloud : CloudResult) (thr : ℚ)
    (call : FunctionCall) (nm : String)
    (h1 : local_res.function_calls = [call])
    (h2 : call.name = some nm)
    (h3 : (tools.map ToolSpec.name).contains nm = true)
    (h4 : ((required_params tools nm).all
      (fun rq => ((call.arguments.getD []).map Prod.fst).contains rq)) = true)
    (h5 : is_complex messages = false) :
    (local_res.confidence < thr →
      generate_hybrid messages tools local_res cloud thr
        = Except.ok { function_calls := cloud.function_calls
                      total_time_ms := cloud.total_time_ms + local_res.total_time_ms
                      confidence := none
                      source := "cloud (fallback: low_conf)"
                      local_confidence := some local_res.confidence })
    ∧ (¬ local_res.confidence < thr →
      generate_hybrid messages tools local_res cloud thr
        = Except.ok { function_calls := local_res.function_calls
                      total_time_ms := local_res.total_time_ms
                      confidence := some local_res.confidence
                      source := "on-device"
                      local_confidence := none }) := by
  constructor <;> intro h6 <;>
    (unfold generate_hybrid
     rw [h1]
     dsimp only
     rw [h2]
     dsimp only
     rw [h3, h4, h5]
     simp [h6])

/-- Witness for C5: the spec's low-confidence example (confidence 0.5,
threshold 0.7) falls back as `low_conf` carrying `local_confidence = 0.5`,
while a confidence exactly equal to the threshold 0.7 stays on-device. -/
theorem hybrid_low_conf_threshold_boundary_witness :
    (generate_hybrid msgs0 tools0 local_lowconf cloud0 (mkRat 7 10)
      = Except.ok { function_calls := cloud0.function_calls
                    total_time_ms := cloud0.total_time_ms + local_lowconf.total_time_ms
                    confidence := none
                    source := "cloud (fallback: low_conf)"
                    local_confidence := some local_lowconf.confidence })
    ∧ (generate_hybrid msgs0 tools0 local_at_threshold cloud0 (mkRat 7 10)
      = Except.ok { function_calls := local_at_threshold.function_calls
                    total_time_ms := local_at_threshold.total_time_ms
                    confidence := some local_at_threshold.confidence
                    source := "on-device"
                    local_confidence := none }) :=
  ⟨(hybrid_low_conf_threshold_boundary msgs0 tools0 local_lowconf cloud0
      (mkRat 7 10) call_sf "get_weather" rfl rfl (by decide) (by decide)
      (by decide)).1 (by decide),
   (hybrid_low_conf_threshold_boundary msgs0 tools0 local_at_threshold cloud0
      (mkRat 7 10) call_sf "get_weather" rfl rfl (by decide) (by decide)
      (by decide)).2 (by decide)⟩

/-- C6: every result the router returns whose source is not `"on-device"`
(i.e. every fallback, under any of the rejection reasons) reports
`total_time_ms` equal to the cloud time plus the local time, and
`local_confidence` equal to the local result's confidence. -/
theorem hybrid_fallback_additive_merge
    (messages : List Message) (tools : List ToolSpec)
    (local_res : LocalResult) (cloud : CloudResult) (thr : ℚ)
    (r : HybridResult)
    (hr : generate_hybrid messages tools local_res cloud thr = Except.ok r)
    (hs : r.source ≠ "on-device") :
    r.total_time_ms = cloud.total_time_ms + local_res.total_time_ms ∧
    r.local_confidence = some local_res.confidence := by
  unfold generate_hybrid at hr
  repeat' split at hr
  all_goals (try cases hr)
  all_goals first
    | exact ⟨rfl, rfl⟩
    | exact absurd rfl hs

/-- Witness for C6: a concrete `no_calls` fallback reports the sum
`cloud time + local time` and carries the local confidence. -/
theorem hybrid_fallback_additive_merge_witness :
    ({ function_calls := cloud0.function_calls
       total_time_ms := cloud0.total_time_ms + local_empty.total_time_ms
       confidence := none
       source := "cloud (fallback: no_calls)"
       local_confidence := some local_empty.confidence } : HybridResult).total_time_ms
        = cloud0.total_time_ms + local_empty.total_time_ms ∧
    ({ function_calls := cloud0.function_calls
       total_time_ms := cloud0.total_time_ms + local_empty.total_time_ms
       confidence := none
       source := "cloud (fallback: no_calls)"
       local_confidence := some local_empty.confidence } : HybridResult).local_confidence
        = some local_empty.confidence :=
  hybrid_fallback_additive_merge msgs0 tools0 local_empty cloud0 (mkRat 7 10)
    _ rfl (by decide)

/-- C7 (amended, corrected): a JSON parse failure yields the empty/zero
record without raising, and any string parsing to a JSON object is
tolerated with per-field defaults; but a string parsing to a non-object
JSON value makes the adapter raise (see the counterexample), so only
object-shaped results are tolerated. -/
theorem cactus_parse_tolerance :
    (generate_cactus (EngineOutcome.returns none)).result
      = Except.ok { function_calls := Json.arr []
                    total_time_ms := Json.num 0
                    confidence := Json.num 0 }
    ∧ ∀ fields : List (String × Json),
        (generate_cactus (EngineOutcome.returns (some (Json.obj fields)))).result
          = Except.ok { function_calls := (fields.lookup "function_calls").getD (Json.arr [])
                        total_time_ms := (fields.lookup "total_time_ms").getD (Json.num 0)
                        confidence := (fields.lookup "confidence").getD (Json.num 0) } :=
  ⟨rfl, fun _ => rfl⟩

/-- Counterexample to C7 as stated: the engine string `"[]"` parses as JSON
(no `JSONDecodeError`), but `raw.get("function_calls", [])` on the parsed
list raises `AttributeError` — the adapter does raise on this shape instead
of applying defaults. -/
theorem cactus_nonobject_parse_raises_cex :
    (generate_cactus (EngineOutcome.returns (some (Json.arr [])))).result
      = Except.error PyError.attributeError :=
  rfl

/-- C8 (code bug): `cactus_destroy` (line 30) is reached on success and on
the JSON-parse-failure path, but not when `cactus_complete` raises — there
is no try/finally, so the exception propagates before line 30 and the
model resource leaks, contrary to the spec's release-on-every-exit-path
invariant. -/
theorem cactus_engine_raise_skips_destroy :
    generate_cactus EngineOutcome.raises
      = { result := Except.error PyError.engineError, destroyed := false }
    ∧ (generate_cactus (EngineOutcome.returns none)).destroyed = true
    ∧ ∀ v : Json, (generate_cactus (EngineOutcome.returns (some v))).destroyed = true :=
  ⟨rfl, rfl, fun _ => rfl⟩

/-- C9: on every fallback (source not `"on-device"`) with the cloud record
built by `generate_cloud`, the returned result has no `confidence` field
(`none`), carries `local_confidence` equal to the local confidence, and
its function calls are exactly the cloud adapter's — whose record has only
`function_calls` and `total_time_ms` by construction. -/
theorem hybrid_fallback_confidence_absent
    (candidates : List CloudCandidate) (elapsed_ms : ℚ)
    (messages : List Message) (tools : List ToolSpec)
    (local_res : LocalResult) (thr : ℚ) (r : HybridResult)
    (hr : generate_hybrid messages tools local_res
            (generate_cloud candidates elapsed_ms) thr = Except.ok r)
    (hs : r.source ≠ "on-device") :
    r.confidence = none ∧
    r.local_confidence = some local_res.confidence ∧
    r.function_calls = (generate_cloud candidates elapsed_ms).function_calls := by
  unfold generate_hybrid at hr
  repeat' split at hr
  all_goals (try cases hr)
  all_goals first
    | exact ⟨rfl, rfl, rfl⟩
    | exact absurd rfl hs

/-- Witness for C9: a concrete `no_calls` fallback over a one-call Gemini
response has `confidence = none`, the local confidence in
`local_confidence`, and the cloud's function calls. -/
theorem hybrid_fallback_confidence_absent_witness :
    ({ function_calls := (generate_cloud cands0 80).function_calls
       total_time_ms := (generate_cloud cands0 80).total_time_ms + local_empty.total_time_ms
       confidence := none
       source := "cloud (fallback: no_calls)"
       local_confidence := some local_empty.confidence } : HybridResult).confidence = none ∧
    ({ function_calls := (generate_cloud cands0 80).function_calls
       total_time_ms := (generate_cloud cands0 80).total_time_ms + local_empty.total_time_ms
       confidence := none
       source := "cloud (fallback: no_calls)"
       local_confidence := some local_empty.confidence } : HybridResult).local_confidence
        = some local_empty.confidence ∧
    ({ function_calls := (generate_cloud cands0 80).function_calls
       total_time_ms := (generate_cloud cands0 80).total_time_ms + local_empty.total_time_ms
       confidence := none
       source := "cloud (fallback: no_calls)"
       local_confidence := some local_empty.confidence } : HybridResult).function_calls
        = (generate_cloud cands0 80).function_calls :=
  hybrid_fallback_confidence_absent cands0 80 msgs0 tools0 local_empty
    (mkRat 7 10) _ rfl (by decide)

/-- C10: with a single local call, reading the call's `"name"` key is
strict — a record without it makes the router raise `KeyError` instead of
falling back — while a record without an `"arguments"` key is tolerated as
an empty argument set and, when the tool has at least one required
parameter, triggers the `missing_args` fallback. -/
theorem hybrid_name_key_strict_args_tolerant :
    (∀ (messages : List Message) (tools : List ToolSpec)
       (local_res : LocalResult) (cloud : CloudResult) (thr : ℚ)
       (call : FunctionCall),
       local_res.function_calls = [call] → call.name = none →
       generate_hybrid messages tools local_res cloud thr
         = Except.error (PyError.keyError "name"))
    ∧ (∀ (messages : List Message) (tools : List ToolSpec)
         (local_res : LocalResult) (cloud : CloudResult) (thr : ℚ)
         (call : FunctionCall) (nm : String),
         local_res.function_calls = [call] → call.name = some nm →
         (tools.map ToolSpec.name).contains nm = true →
         call.arguments = none → required_params tools nm ≠ [] →
         generate_hybrid messages tools local_res cloud thr
           = Except.ok { function_calls := cloud.function_calls
                         total_time_ms := cloud.total_time_ms + local_res.total_time_ms
                         confidence := none
                         source := "cloud (fallback: missing_args)"
                         local_confidence := some local_res.confidence }) := by
  constructor
  · intro messages tools local_res cloud thr call h1 h2
    unfold generate_hybrid
    rw [h1]
    dsimp only
    rw [h2]
    simp
  · intro messages tools local_res cloud thr call nm h1 h2 h3 hargs hreq
    unfold generate_hybrid
    rw [h1]
    dsimp only
    rw [h2]
    dsimp only
    rw [h3, hargs]
    rcases hq : required_params tools nm with _ | ⟨a, as⟩
    · exact absurd hq hreq
    · simp [hq]

/-- Witness for C10: a call record with no `"name"` key makes the router
raise `KeyError("name")`, while a `get_weather` call with no `"arguments"`
key falls back as `missing_args`. -/
theorem hybrid_name_key_strict_args_tolerant_witness :
    generate_hybrid msgs0 tools0 local_noname cloud0 (mkRat 7 10)
      = Except.error (PyError.keyError "name")
    ∧ generate_hybrid msgs0 tools0 local_noargs cloud0 (mkRat 7 10)
      = Except.ok { function_calls := cloud0.function_calls
                    total_time_ms := cloud0.total_time_ms + local_noargs.total_time_ms
                    confidence := none
                    source := "cloud (fallback: missing_args)"
                    local_confidence := some local_noargs.confidence } :=
  ⟨hybrid_name_key_strict_args_tolerant.1 msgs0 tools0 local_noname cloud0
     (mkRat 7 10) call_noname rfl rfl,
   hybrid_name_key_strict_args_tolerant.2 msgs0 tools0 local_noargs cloud0
     (mkRat 7 10) call_noargs "get_weather" rfl rfl (by decide) rfl (by decide)⟩
